import Mathlib

/-!
Verification development for the shopping-list subsystem of the tom-bot
repository (src/src/discord_bot/commands/shop.rs).

Strings from the Rust side are modelled as `List Char` in the ranking
engine (Rust compares `&str` byte-wise, which on valid UTF-8 agrees with
code-point lexicographic order on the character sequence) and as `String`
in the record/flow layer.
-/

namespace TomBot

/-! ### Suggestion ranker: comparator (shop.rs, `Shop::autocomplete`) -/

/-- Character comparison by code point, as Rust compares `char`s/bytes. -/
def charCmp (a b : Char) : Ordering :=
  if a < b then .lt else if b < a then .gt else .eq

/-- Lexicographic comparison of character sequences; the embedding of
Rust's `a.cmp(b)` on `&str` used as the final tie-break of the
autocomplete comparator. -/
def lexCmp : List Char → List Char → Ordering
  | [], [] => .eq
  | [], _ :: _ => .lt
  | _ :: _, [] => .gt
  | a :: as, b :: bs =>
    match charCmp a b with
    | .eq => lexCmp as bs
    | o => o

/-- Rust's `a.starts_with(p)`: `p` is a prefix of `a`. -/
def startsWith (a p : List Char) : Bool := p.isPrefixOf a

/-- Rust's `a.contains(p)`: `p` occurs as a contiguous substring of `a`. -/
def containsStr (a p : List Char) : Bool := decide (p <:+: a)

/-- The branch structure of the `sort_by` comparator in
`Shop::autocomplete` (identical in the `item` and `store` branches),
abstracted over the four boolean tests and the tie-break ordering. -/
def shopCmpKey (aS bS aC bC : Bool) (tie : Ordering) : Ordering :=
  if aS && !bS then .lt
  else if !aS && bS then .gt
  else if aC && !bC then .lt
  else if !aC && bC then .gt
  else tie

/-- The comparator passed to `sort_by` in `Shop::autocomplete`, for
search phrase `p`. -/
def shopCmp (p a b : List Char) : Ordering :=
  shopCmpKey (startsWith a p) (startsWith b p) (containsStr a p) (containsStr b p) (lexCmp a b)

/-- Candidate `a` sorts no later than `b` under the autocomplete comparator. -/
def shopLe (p a b : List Char) : Prop := shopCmp p a b ≠ .gt

instance shopLeDec (p : List Char) : DecidableRel (shopLe p) :=
  fun a b => inferInstanceAs (Decidable (shopCmp p a b ≠ .gt))

/-- The sort the autocomplete handler applies to the deduplicated
candidate list (a stable sort by the comparator; Rust's `sort_by` is
stable, as is insertion sort). -/
def sortCandidates (p : List Char) (l : List (List Char)) : List (List Char) :=
  List.insertionSort (shopLe p) l

/-- The ranked suggestion list actually returned: sort, then
`truncate(25)`. -/
def rankedSuggestions (p : List Char) (candidates : List (List Char)) : List (List Char) :=
  (sortCandidates p candidates).take 25

/-! ### Comparator lemmas -/

theorem charCmp_self (a : Char) : charCmp a a = .eq := by simp [charCmp]

theorem charCmp_eq_iff {a b : Char} : charCmp a b = .eq ↔ a = b := by
  unfold charCmp
  split
  · next h => simp [ne_of_lt h]
  · split
    · next h => simp [(ne_of_lt h).symm]
    · next h1 h2 => simp [le_antisymm (le_of_not_lt h2) (le_of_not_lt h1)]

theorem eq_of_lexCmp_eq : ∀ {a b : List Char}, lexCmp a b = .eq → a = b
  | [], [], _ => rfl
  | [], _ :: _, h => nomatch h
  | _ :: _, [], h => nomatch h
  | a :: as, b :: bs, h => by
    rcases hc : charCmp a b with _ | _ | _ <;> simp only [lexCmp, hc] at h <;>
      first
      | exact absurd h (by decide)
      | (have hab : a = b := charCmp_eq_iff.mp hc
         rw [hab, eq_of_lexCmp_eq h])

theorem lexCmp_self (a : List Char) : lexCmp a a = .eq := by
  induction a with
  | nil => rfl
  | cons x xs ih => simp [lexCmp, charCmp_self, ih]

theorem lexCmp_eq_iff {a b : List Char} : lexCmp a b = .eq ↔ a = b :=
  ⟨eq_of_lexCmp_eq, fun h => h ▸ lexCmp_self a⟩

theorem charCmp_swap (a b : Char) : charCmp b a = (charCmp a b).swap := by
  unfold charCmp
  rcases lt_trichotomy a b with h | h | h
  · simp [h, asymm h, ne_of_gt h, Ordering.swap]
  · simp [h, lt_irrefl, Ordering.swap]
  · simp [h, asymm h, ne_of_gt h, Ordering.swap]

theorem charCmp_lt_iff {a b : Char} : charCmp a b = .lt ↔ a < b := by
  unfold charCmp
  split
  · next h => simp [h]
  · split <;> simp_all

theorem lexCmp_swap : ∀ a b : List Char, lexCmp b a = (lexCmp a b).swap
  | [], [] => rfl
  | [], _ :: _ => rfl
  | _ :: _, [] => rfl
  | a :: as, b :: bs => by
    simp only [lexCmp, charCmp_swap a b]
    rcases charCmp a b with _ | _ | _
    · rfl
    · simpa [Ordering.swap] using lexCmp_swap as bs
    · rfl

theorem lexCmp_lt_trans :
    ∀ {a b c : List Char}, lexCmp a b = .lt → lexCmp b c = .lt → lexCmp a c = .lt
  | [], _ :: _, _ :: _, _, _ => rfl
  | [], _ :: _, [], _, h2 => nomatch h2
  | [], [], _, h1, _ => nomatch h1
  | _ :: _, [], _, h1, _ => nomatch h1
  | _ :: _, _ :: _, [], _, h2 => nomatch h2
  | a :: as, b :: bs, c :: cs, h1, h2 => by
    rcases hab : charCmp a b with _ | _ | _ <;> simp only [lexCmp, hab] at h1 <;>
      rcases hbc : charCmp b c with _ | _ | _ <;> simp only [lexCmp, hbc] at h2 <;>
        first
        | exact absurd h1 (by decide)
        | exact absurd h2 (by decide)
        | (have hlt := lt_trans (charCmp_lt_iff.mp hab) (charCmp_lt_iff.mp hbc)
           simp [lexCmp, charCmp_lt_iff.mpr hlt])
        | (have hbceq : b = c := charCmp_eq_iff.mp hbc
           subst hbceq
           simp [lexCmp, hab]
           done)
        | (have habeq : a = b := charCmp_eq_iff.mp hab
           subst habeq
           simp [lexCmp, hbc]
           done)
        | (have habeq : a = b := charCmp_eq_iff.mp hab
           have hbceq : b = c := charCmp_eq_iff.mp hbc
           subst habeq; subst hbceq
           simp [lexCmp, charCmp_self]
           exact lexCmp_lt_trans h1 h2)

theorem shopCmpKey_swap (aS bS aC bC : Bool) (t : Ordering) :
    shopCmpKey bS aS bC aC t.swap = (shopCmpKey aS bS aC bC t).swap := by
  cases aS <;> cases bS <;> cases aC <;> cases bC <;> rfl

theorem shopCmpKey_self (s c : Bool) (t : Ordering) : shopCmpKey s s c c t = t := by
  cases s <;> cases c <;> rfl

theorem eq_of_shopCmpKey_eq {aS bS aC bC : Bool} {t : Ordering}
    (h : shopCmpKey aS bS aC bC t = .eq) : t = .eq := by
  cases aS <;> cases bS <;> cases aC <;> cases bC <;>
    first
    | exact h
    | (exfalso; revert h; simp [shopCmpKey]; done)

theorem shopCmpKey_lt_trans (aS bS cS aC bC cC : Bool) (t1 t2 t3 : Ordering)
    (ht : t1 = .lt → t2 = .lt → t3 = .lt)
    (h1 : shopCmpKey aS bS aC bC t1 = .lt) (h2 : shopCmpKey bS cS bC cC t2 = .lt) :
    shopCmpKey aS cS aC cC t3 = .lt := by
  cases aS <;> cases bS <;> cases cS <;> cases aC <;> cases bC <;> cases cC <;>
    first
    | rfl
    | exact ht h1 h2
    | (exfalso; revert h1; simp [shopCmpKey]; done)
    | (exfalso; revert h2; simp [shopCmpKey]; done)

theorem shopCmp_swap (p a b : List Char) : shopCmp p b a = (shopCmp p a b).swap := by
  unfold shopCmp
  rw [lexCmp_swap a b]
  exact shopCmpKey_swap _ _ _ _ _

theorem shopCmp_eq_iff {p a b : List Char} : shopCmp p a b = .eq ↔ a = b := by
  constructor
  · intro h
    exact eq_of_lexCmp_eq (eq_of_shopCmpKey_eq h)
  · rintro rfl
    unfold shopCmp
    rw [shopCmpKey_self, lexCmp_self]

theorem shopCmp_lt_trans {p a b c : List Char}
    (h1 : shopCmp p a b = .lt) (h2 : shopCmp p b c = .lt) : shopCmp p a c = .lt :=
  shopCmpKey_lt_trans _ _ _ _ _ _ _ _ _ lexCmp_lt_trans h1 h2

theorem shopLe_refl (p a : List Char) : shopLe p a a := by
  unfold shopLe
  rw [shopCmp_eq_iff.mpr rfl]
  decide

theorem shopLe_total (p a b : List Char) : shopLe p a b ∨ shopLe p b a := by
  unfold shopLe
  rw [shopCmp_swap p a b]
  rcases shopCmp p a b with _ | _ | _ <;> simp [Ordering.swap]

theorem shopLe_antisymm {p a b : List Char} (h1 : shopLe p a b) (h2 : shopLe p b a) :
    a = b := by
  unfold shopLe at h1 h2
  rw [shopCmp_swap p a b] at h2
  have h3 : shopCmp p a b = .eq := by
    rcases h : shopCmp p a b with _ | _ | _
    · rw [h] at h2
      exact (h2 rfl).elim
    · rfl
    · exact absurd h h1
  exact shopCmp_eq_iff.mp h3

theorem shopLe_trans {p a b c : List Char} (h1 : shopLe p a b) (h2 : shopLe p b c) :
    shopLe p a c := by
  unfold shopLe at h1 h2 ⊢
  rcases hab : shopCmp p a b with _ | _ | _
  · rcases hbc : shopCmp p b c with _ | _ | _
    · rw [shopCmp_lt_trans hab hbc]
      decide
    · rw [← shopCmp_eq_iff.mp hbc, hab]
      decide
    · exact absurd hbc h2
  · rw [shopCmp_eq_iff.mp hab]
    exact h2
  · exact absurd hab h1

theorem shopCmpKey_ne_gt_iff (aS bS aC bC : Bool) (t : Ordering) :
    shopCmpKey aS bS aC bC t ≠ .gt ↔
      (aS = true ∧ bS = false) ∨
      (aS = bS ∧ aC = true ∧ bC = false) ∨
      (aS = bS ∧ aC = bC ∧ t ≠ .gt) := by
  cases aS <;> cases bS <;> cases aC <;> cases bC <;> simp [shopCmpKey]

/-- The three-tier ranking rule as the specification words it: `a` is
ranked no later than `b` when `a` starts with the phrase and `b` does
not; or when that rule does not separate them and only `a` contains the
phrase; or when neither rule separates them and `a` is lexicographically
no greater than `b`. -/
def rankLe (p a b : List Char) : Prop :=
  (startsWith a p = true ∧ startsWith b p = false) ∨
  (startsWith a p = startsWith b p ∧ containsStr a p = true ∧ containsStr b p = false) ∨
  (startsWith a p = startsWith b p ∧ containsStr a p = containsStr b p ∧ lexCmp a b ≠ .gt)

theorem shopLe_iff_rankLe (p a b : List Char) : shopLe p a b ↔ rankLe p a b := by
  unfold shopLe shopCmp rankLe
  exact shopCmpKey_ne_gt_iff _ _ _ _ _

/-! ### Claim theorems about the suggestion ranker -/

/-- C3: for every candidate set and search prefix `p`, the suggestion
ranker orders candidates in three tiers: every candidate starting with
`p` ranks strictly before every candidate not starting with `p`; among
candidates not separated by that rule, those containing `p` rank
strictly before those not containing `p`; remaining ties are broken by
ascending lexicographic comparison.  The comparator holds between two
candidates exactly when the three-tier rule does, the sorted output is a
permutation of the candidate list, and every ordered pair of the output
satisfies the rule (so in particular no prefix match ever appears after
a non-match, and no substring match after a non-containing tie). -/
theorem autocomplete_three_tier_ordering (p : List Char) (l : List (List Char)) :
    (∀ a b, shopLe p a b ↔ rankLe p a b) ∧
    (sortCandidates p l).Perm l ∧
    List.Pairwise (rankLe p) (sortCandidates p l) := by
  haveI : IsTotal (List Char) (shopLe p) := ⟨shopLe_total p⟩
  haveI : IsTrans (List Char) (shopLe p) := ⟨fun _ _ _ => shopLe_trans⟩
  refine ⟨shopLe_iff_rankLe p, List.perm_insertionSort _ _, ?_⟩
  have hs : List.Pairwise (shopLe p) (sortCandidates p l) :=
    List.sorted_insertionSort (shopLe p) l
  exact hs.imp (fun h => (shopLe_iff_rankLe p _ _).mp h)

/-- C4: for every fixed prefix, the suggestion comparator is reflexive,
antisymmetric and transitive on candidate strings, and consequently the
ranked output is identical for any two enumerations (in any iteration
order) of the same candidate set. -/
theorem autocomplete_total_order_deterministic (p : List Char) :
    (∀ a, shopLe p a a) ∧
    (∀ a b, shopLe p a b → shopLe p b a → a = b) ∧
    (∀ a b c, shopLe p a b → shopLe p b c → shopLe p a c) ∧
    (∀ l1 l2 : List (List Char), l1.Nodup → l2.Nodup → l1.toFinset = l2.toFinset →
      sortCandidates p l1 = sortCandidates p l2) := by
  haveI : IsTotal (List Char) (shopLe p) := ⟨shopLe_total p⟩
  haveI : IsTrans (List Char) (shopLe p) := ⟨fun _ _ _ => shopLe_trans⟩
  haveI : IsAntisymm (List Char) (shopLe p) := ⟨fun _ _ => shopLe_antisymm⟩
  refine ⟨fun a => shopLe_refl p a, fun _ _ => shopLe_antisymm,
    fun _ _ _ => shopLe_trans, ?_⟩
  intro l1 l2 h1 h2 hset
  have hperm : l1.Perm l2 := List.perm_of_nodup_nodup_toFinset_eq h1 h2 hset
  have hp2 : (sortCandidates p l1).Perm (sortCandidates p l2) :=
    ((List.perm_insertionSort _ l1).trans hperm).trans
      (List.perm_insertionSort _ l2).symm
  exact List.eq_of_perm_of_sorted hp2
    (List.sorted_insertionSort _ l1) (List.sorted_insertionSort _ l2)

/-- Witness for C4 at a concrete input: two enumerations of the same
candidate set in different orders rank identically. -/
theorem autocomplete_total_order_deterministic_witness :
    sortCandidates ['c', 'h'] [['m', 'i'], ['c', 'h', 'e']] =
      sortCandidates ['c', 'h'] [['c', 'h', 'e'], ['m', 'i']] :=
  (autocomplete_total_order_deterministic ['c', 'h']).2.2.2 _ _
    (by decide) (by decide) (by decide)

/-- C8: for every candidate set and prefix, the suggestion result
returned to the platform (sorted then truncated) contains at most 25
entries, however many candidates were collected. -/
theorem autocomplete_at_most_25 (p : List Char) (candidates : List (List Char)) :
    (rankedSuggestions p candidates).length ≤ 25 := by
  have h := List.length_take 25 (sortCandidates p candidates)
  unfold rankedSuggestions
  rw [h]
  exact Nat.min_le_left _ _

/-! ### Data model and external-effect model for the command flows

The flows below embed `create_loading_message`, `push_list_item_to_database`,
`Shop::handle_application_command` and `Shop::interaction` from shop.rs.
External calls (Discord and the database) are modelled by an `Env` record
that fixes each call's outcome, and every flow additionally returns the
list of externally visible effects it performed, in order. -/

/-- The persisted record.  Field set from the specification's data model
(§3); the database module itself is not part of the given sources. -/
structure ShoppingListItem where
  message_id : Nat
  user_id : Nat
  channel_id : Nat
  guild_id : Option Nat
  item : String
  personal : Bool
  quantity : Int
  store : Option String
  notes : Option String
  bought : Bool
deriving DecidableEq, Repr

/-- The item store state: the persisted records in insertion order. -/
abbrev Store := List ShoppingListItem

/-- The Shop struct from shop.rs: the parsed new-item request. -/
structure Shop where
  item : String
  personal : Bool
  quantity : Int
  store : Option String
  notes : Option String
deriving DecidableEq, Repr

/-- Modelled from the spec: the subset of the `CommandResponse` enum
(discord_bot/commands/util.rs, not among the given sources) that shop.rs
uses: `NoResponse` and `InternalFailure`. -/
inductive CommandResponse
  | noResponse
  | internalFailure (msg : String)
deriving DecidableEq, Repr

/-- Outcome of running one handler: a normal return (`ok`/`err` mirror
`Result<CommandResponse, CommandResponse>`), a dispatcher-level
rejection, a validation rejection, or a Rust panic. -/
inductive HandlerResult
  | ok (r : CommandResponse)
  | err (r : CommandResponse)
  | notFound
  | validationErr (msg : String)
  | panicked
deriving DecidableEq, Repr

/-- Externally visible effects, in the order the handler performs them. -/
inductive Event
  | deferAck
  | getResponse (m : Nat)
  | followup (m : Nat)
  | errorFollowup
  | editMessage (m : Nat) (text : String)
  | acknowledge
  | storeGet (m : Nat)
  | storeSetBought (u m : Nat) (b : Bool)
  | storeInsert (it : ShoppingListItem)
  | logError
deriving DecidableEq, Repr

/-- Is the event an access to the item store (read or write)? -/
def Event.isStoreAccess : Event → Bool
  | .storeGet _ => true
  | .storeSetBought _ _ _ => true
  | .storeInsert _ => true
  | _ => false

/-- Fixed outcomes of the external calls a flow may make. -/
structure Env where
  defer_ok : Bool
  get_response : Option Nat
  followup_ok : Bool
  edit_ok : Bool
  ack_ok : Bool
  err_followup_ok : Bool
  insert_ok : Bool
  set_bought_ok : Bool
  get_ok : Bool
deriving DecidableEq, Repr

/-- An embed of a Discord message: only the description matters to
shop.rs. -/
structure DiscordEmbed where
  description : Option String
deriving DecidableEq, Repr

/-- The Discord message a component interaction was clicked on. -/
structure DiscordMessage where
  id : Nat
  embeds : List DiscordEmbed
deriving DecidableEq, Repr

/-- Modelled from the spec: `get_shopping_list_item_by_message_id` of the
missing database module — lookup of the unique record keyed by the
message identifier (§4.1). -/
def get_shopping_list_item_by_message_id (store : Store) (m : Nat) :
    Option ShoppingListItem :=
  store.find? (fun r => r.message_id == m)

/-- Modelled from the spec: `add_shopping_list_item` of the missing
database module — insert a fresh record with `bought = false` (§3, §4.1),
failing (`none`, the `Conflict` case) when the key already exists. -/
def add_shopping_list_item (store : Store) (it : ShoppingListItem) : Option Store :=
  if (get_shopping_list_item_by_message_id store it.message_id).isSome then none
  else some (store ++ [it])

/-- Modelled from the spec: `set_shopping_list_item_bought` of the
missing database module — set the `bought` flag of the record keyed by
`m`; the acting user is recorded but not validated (§4.1). -/
def set_shopping_list_item_bought (store : Store) (_u m : Nat) (b : Bool) : Store :=
  store.map (fun r => if r.message_id == m then { r with bought := b } else r)

/-- Generic error text used by shop.rs for database failures (the code
appends the formatted underlying error, which the model elides). -/
def errDb : String := "error communicating with database"

/-- Generic error text used by shop.rs for Discord failures. -/
def errDiscord : String := "error communicating with discord"

/-- Function `create_loading_message` from shop.rs: defer (the provisional
acknowledgement), then fetch the deferred response message and return
its identifier. -/
def create_loading_message (env : Env) : Except CommandResponse Nat × List Event :=
  if env.defer_ok then
    match env.get_response with
    | some m => (.ok m, [.deferAck, .getResponse m])
    | none => (.error (.internalFailure errDb), [.deferAck])
  else (.error (.internalFailure errDb), [])

/-- Function `push_list_item_to_database` from shop.rs: insert the record keyed
by `message_id`; on failure log, send an ephemeral error follow-up, and
return `Err(CommandResponse::NoResponse)`. -/
def push_list_item_to_database (shop : Shop) (uid cid : Nat) (gid : Option Nat)
    (env : Env) (store : Store) (message_id : Nat) :
    Except CommandResponse Unit × Store × List Event :=
  let newItem : ShoppingListItem :=
    { message_id := message_id, user_id := uid, channel_id := cid, guild_id := gid,
      item := shop.item, personal := shop.personal, quantity := shop.quantity,
      store := shop.store, notes := shop.notes, bought := false }
  match (if env.insert_ok then add_shopping_list_item store newItem else none) with
  | some st => (.ok (), st, [.storeInsert newItem])
  | none =>
    (.error .noResponse, store,
      [.storeInsert newItem, .logError] ++
        if env.err_followup_ok then [.errorFollowup] else [.logError])

/-- Method `Shop::handle_application_command` from shop.rs: loading message,
render the result (the platform delivers the first follow-up after a
deferral into the deferred message, so the rendered message is the one
whose identifier `create_loading_message` returned), then insert. -/
def handle_application_command (shop : Shop) (uid cid : Nat) (gid : Option Nat)
    (env : Env) (store : Store) : HandlerResult × Store × List Event :=
  match create_loading_message env with
  | (.error e, tr) => (.err e, store, tr)
  | (.ok m, tr) =>
    if env.followup_ok then
      match push_list_item_to_database shop uid cid gid env store m with
      | (.ok _, st, tr2) => (.ok CommandResponse.noResponse, st, tr ++ [.followup m] ++ tr2)
      | (.error e, st, tr2) => (.err e, st, tr ++ [.followup m] ++ tr2)
    else (.err CommandResponse.noResponse, store, tr ++ [.logError])

/-- The struck-through description the `bought` branch writes. -/
def boughtText (d : String) : String := "(BOUGHT) ~~" ++ d ++ "~~"

/-- The description the `remove` branch writes. -/
def removedText (d : String) : String := "(REMOVED) " ++ d

/-- The `"bought"` branch of `Shop::interaction`: mark bought, then edit
the clicked message (the `expect` on a missing embed description and the
`unwrap` on the final acknowledgement are modelled as `panicked`). -/
def bought_flow (uid : Nat) (msg : DiscordMessage) (env : Env) (store : Store) :
    HandlerResult × Store × List Event :=
  let m := msg.id
  if env.set_bought_ok then
    let st := set_shopping_list_item_bought store uid m true
    match msg.embeds.head? with
    | none => (.err (.internalFailure errDiscord), st, [.storeSetBought uid m true])
    | some e =>
      match e.description with
      | none => (.panicked, st, [.storeSetBought uid m true])
      | some d =>
        if env.edit_ok then
          if env.ack_ok then
            (.ok CommandResponse.noResponse, st,
              [.storeSetBought uid m true, .editMessage m (boughtText d), .acknowledge])
          else
            (.panicked, st, [.storeSetBought uid m true, .editMessage m (boughtText d)])
        else (.err (.internalFailure errDiscord), st, [.storeSetBought uid m true])
  else (.err (.internalFailure errDb), store, [.storeSetBought uid m true])

/-- The `"remove"` branch of `Shop::interaction`: identical to the
`bought` branch except for the rendered text. -/
def remove_flow (uid : Nat) (msg : DiscordMessage) (env : Env) (store : Store) :
    HandlerResult × Store × List Event :=
  let m := msg.id
  if env.set_bought_ok then
    let st := set_shopping_list_item_bought store uid m true
    match msg.embeds.head? with
    | none => (.err (.internalFailure errDiscord), st, [.storeSetBought uid m true])
    | some e =>
      match e.description with
      | none => (.panicked, st, [.storeSetBought uid m true])
      | some d =>
        if env.edit_ok then
          if env.ack_ok then
            (.ok CommandResponse.noResponse, st,
              [.storeSetBought uid m true, .editMessage m (removedText d), .acknowledge])
          else
            (.panicked, st, [.storeSetBought uid m true, .editMessage m (removedText d)])
        else (.err (.internalFailure errDiscord), st, [.storeSetBought uid m true])
  else (.err (.internalFailure errDb), store, [.storeSetBought uid m true])

/-- The `"readd"` branch of `Shop::interaction`: look the record up,
defer, render a fresh message and insert a brand-new record keyed by the
rendered message's identifier. -/
def readd_flow (uid cid : Nat) (gid : Option Nat) (msg : DiscordMessage)
    (env : Env) (store : Store) : HandlerResult × Store × List Event :=
  let m := msg.id
  if env.get_ok then
    match get_shopping_list_item_by_message_id store m with
    | none => (.err (.internalFailure errDb), store, [.storeGet m])
    | some it =>
      match create_loading_message env with
      | (.error e, tr) => (.err e, store, Event.storeGet m :: tr)
      | (.ok m2, tr) =>
        let shop : Shop := { item := it.item, personal := it.personal,
                             quantity := it.quantity, store := it.store, notes := it.notes }
        if env.followup_ok then
          match push_list_item_to_database shop uid cid gid env store m2 with
          | (.ok _, st, tr2) =>
            (.ok CommandResponse.noResponse, st,
              Event.storeGet m :: tr ++ [.followup m2] ++ tr2)
          | (.error e, st, tr2) =>
            (.err e, st, Event.storeGet m :: tr ++ [.followup m2] ++ tr2)
        else (.err (.internalFailure errDiscord), store, Event.storeGet m :: tr)
  else (.err (.internalFailure errDb), store, [.storeGet m])

/-- Method `Shop::interaction` from shop.rs: dispatch on the button's
`custom_id`. -/
def interaction (action : String) (uid cid : Nat) (gid : Option Nat)
    (msg : DiscordMessage) (env : Env) (store : Store) :
    HandlerResult × Store × List Event :=
  if action == "bought" then bought_flow uid msg env store
  else if action == "remove" then remove_flow uid msg env store
  else if action == "readd" then readd_flow uid cid gid msg env store
  else (.err (.internalFailure "Invalid interaction"), store, [])

/-- Method `Shop::answerable` from shop.rs: a component interaction is handled
only when the clicked message's record exists in the store. -/
def answerable (env : Env) (store : Store) (m : Nat) : Bool :=
  if env.get_ok then (get_shopping_list_item_by_message_id store m).isSome else false

/-- Modelled from the spec: the interaction dispatcher (the command glue
is not among the given sources) asks `answerable` first and rejects a
click whose record is missing as `NotFound` with no further effect
(§4.2: "A missing record ... is reported as `NotFound` and aborts the
transition"). -/
def button_click (action : String) (uid cid : Nat) (gid : Option Nat)
    (msg : DiscordMessage) (env : Env) (store : Store) :
    HandlerResult × Store × List Event :=
  if answerable env store msg.id then
    let r := interaction action uid cid gid msg env store
    (r.1, r.2.1, Event.storeGet msg.id :: r.2.2)
  else (.notFound, store, [Event.storeGet msg.id])

/-! ### New-item request parsing (`TryFrom<&CommandInteraction> for Shop`) -/

/-- A resolved option value, as in serenity's `ResolvedValue` (only the
variants shop.rs matches on). -/
inductive RValue
  | str (s : String)
  | boolean (b : Bool)
  | integer (i : Int)
deriving DecidableEq, Repr

/-- Result of the `TryFrom` conversion: the parsed request, the
validation error string, or the `panic!` on an unexpected option. -/
inductive ParseResult
  | ok (s : Shop)
  | err (msg : String)
  | panicked
deriving DecidableEq, Repr

/-- The option loop of `impl TryFrom<&CommandInteraction> for Shop`,
with the five accumulators threaded explicitly. -/
def shopTryFromAux : List (String × RValue) → Option String → Option Bool →
    Option Int → Option String → Option String → ParseResult
  | [], item, personal, quantity, store, notes =>
    match item, personal with
    | some it, some pe =>
      .ok { item := it, personal := pe, quantity := quantity.getD 1,
            store := store, notes := notes }
    | _, _ => .err "item and personal are required"
  | o :: rest, item, personal, quantity, store, notes =>
    match o with
    | ("item", .str v) => shopTryFromAux rest (some v) personal quantity store notes
    | ("personal", .boolean v) => shopTryFromAux rest item (some v) quantity store notes
    | ("quantity", .integer v) => shopTryFromAux rest item personal (some v) store notes
    | ("store", .str v) => shopTryFromAux rest item personal quantity (some v) notes
    | ("notes", .str v) => shopTryFromAux rest item personal quantity store (some v)
    | _ => .panicked

/-- The TryFrom conversion of shop.rs (CommandInteraction to Shop). -/
def shopTryFrom (options : List (String × RValue)) : ParseResult :=
  shopTryFromAux options none none none none none

/-- Does the interaction carry an option with this name? -/
def hasOpt (options : List (String × RValue)) (nm : String) : Bool :=
  options.any (fun o => o.1 == nm)

/-- Modelled from the spec: the command dispatcher (not among the given
sources) parses the interaction into a `Shop` first; a parse failure is
reported as a validation error and the handler never runs (§4.2, §7). -/
def new_item_command (options : List (String × RValue)) (uid cid : Nat)
    (gid : Option Nat) (env : Env) (store : Store) :
    HandlerResult × Store × List Event :=
  match shopTryFrom options with
  | .ok shop => handle_application_command shop uid cid gid env store
  | .err m => (.validationErr m, store, [])
  | .panicked => (.panicked, store, [])

/-! ### Claim theorems about the command flows -/

/-- Is the event a record insertion? -/
def Event.isInsert : Event → Bool
  | .storeInsert _ => true
  | _ => false

/-- Is the event the rendering of a result message? -/
def Event.isFollowup : Event → Bool
  | .followup _ => true
  | _ => false

/-- An all-success environment used by concrete witnesses: the deferred
response message gets identifier 7. -/
def envAll : Env :=
  { defer_ok := true, get_response := some 7, followup_ok := true, edit_ok := true,
    ack_ok := true, err_followup_ok := true, insert_ok := true, set_bought_ok := true,
    get_ok := true }

/-- A concrete new-item request used by witnesses. -/
def shop0 : Shop :=
  { item := "milk 2L", personal := true, quantity := 3, store := none, notes := none }

/-- C1: for every valid new-item request whose handling returns
successfully, exactly one record is persisted (one `storeInsert` effect,
and the final store is the old store plus that one record) and exactly
one result message is rendered (one `followup` effect), and the
persisted record's key `message_id` equals the identifier of that
rendered message. -/
theorem new_item_one_record_one_message (shop : Shop) (uid cid : Nat)
    (gid : Option Nat) (env : Env) (store : Store) (r : CommandResponse)
    (h : (handle_application_command shop uid cid gid env store).1 = .ok r) :
    ∃ m,
      env.get_response = some m ∧
      (handle_application_command shop uid cid gid env store).2.2.filter Event.isInsert =
        [Event.storeInsert
          { message_id := m, user_id := uid, channel_id := cid, guild_id := gid,
            item := shop.item, personal := shop.personal, quantity := shop.quantity,
            store := shop.store, notes := shop.notes, bought := false }] ∧
      (handle_application_command shop uid cid gid env store).2.2.filter Event.isFollowup =
        [Event.followup m] ∧
      (handle_application_command shop uid cid gid env store).2.1 =
        store ++
          [{ message_id := m, user_id := uid, channel_id := cid, guild_id := gid,
             item := shop.item, personal := shop.personal, quantity := shop.quantity,
             store := shop.store, notes := shop.notes, bought := false }] := by
  obtain ⟨d, gr, fu, ed, ac, ef, ins, sb, g⟩ := env
  cases d
  · simp [handle_application_command, create_loading_message] at h
  rcases gr with _ | m
  · simp [handle_application_command, create_loading_message] at h
  cases fu
  · simp [handle_application_command, create_loading_message] at h
  cases ins
  · simp [handle_application_command, create_loading_message,
      push_list_item_to_database] at h
  cases hlook : (get_shopping_list_item_by_message_id store m).isSome
  · refine ⟨m, rfl, ?_, ?_, ?_⟩ <;>
      simp [handle_application_command, create_loading_message,
        push_list_item_to_database, add_shopping_list_item, hlook,
        Event.isInsert, Event.isFollowup, List.filter]
  · simp [handle_application_command, create_loading_message,
      push_list_item_to_database, add_shopping_list_item, hlook] at h

/-- Witness for C1 at a concrete all-success input. -/
theorem new_item_one_record_one_message_witness :
    ∃ m,
      envAll.get_response = some m ∧
      (handle_application_command shop0 1 2 none envAll []).2.2.filter Event.isInsert =
        [Event.storeInsert
          { message_id := m, user_id := 1, channel_id := 2, guild_id := none,
            item := shop0.item, personal := shop0.personal, quantity := shop0.quantity,
            store := shop0.store, notes := shop0.notes, bought := false }] ∧
      (handle_application_command shop0 1 2 none envAll []).2.2.filter Event.isFollowup =
        [Event.followup m] ∧
      (handle_application_command shop0 1 2 none envAll []).2.1 =
        [{ message_id := m, user_id := 1, channel_id := 2, guild_id := none,
           item := shop0.item, personal := shop0.personal, quantity := shop0.quantity,
           store := shop0.store, notes := shop0.notes, bought := false }] := by
  have hw := new_item_one_record_one_message shop0 1 2 none envAll []
    CommandResponse.noResponse (by decide)
  simpa using hw

/-- A concrete active record used by witnesses, keyed by message 7. -/
def item0 : ShoppingListItem :=
  { message_id := 7, user_id := 1, channel_id := 2, guild_id := none,
    item := "milk 2L", personal := true, quantity := 3, store := none,
    notes := none, bought := false }

/-- The concrete Discord message of record `item0`. -/
def msg0 : DiscordMessage :=
  { id := 7, embeds := [{ description := some "Added x3 milk 2L to the shopping list" }] }

/-- Does a store access occur before the first provisional
acknowledgement (or with no provisional acknowledgement at all)? -/
def storeAccessBeforeAck : List Event → Bool
  | [] => false
  | e :: tr =>
    if e = Event.deferAck then false
    else if e.isStoreAccess then true
    else storeAccessBeforeAck tr

/-- C2 is false on the code: on a concrete `bought` button click that
succeeds end to end, the trace consists of a store read (the gating
lookup), the store write, the message edit and only then the (final, not
provisional) acknowledgement — a store access precedes any
acknowledgement and no provisional acknowledgement is emitted at all. -/
theorem ack_before_store_counterexample :
    storeAccessBeforeAck (button_click "bought" 1 2 none msg0 envAll [item0]).2.2 = true ∧
    Event.deferAck ∉ (button_click "bought" 1 2 none msg0 envAll [item0]).2.2 ∧
    (button_click "bought" 1 2 none msg0 envAll [item0]).2.2 =
      [Event.storeGet 7, Event.storeSetBought 1 7 true,
       Event.editMessage 7 (boughtText "Added x3 milk 2L to the shopping list"),
       Event.acknowledge] := by
  decide

/-- C2 amended: only the new-item command path emits its provisional
acknowledgement before any store access; every button click's very first
effect is a store access (the gating lookup), so there no
acknowledgement of any kind precedes store access. -/
theorem provisional_ack_ordering_amended :
    (∀ (shop : Shop) (uid cid : Nat) (gid : Option Nat) (env : Env) (store : Store),
      storeAccessBeforeAck (handle_application_command shop uid cid gid env store).2.2 =
        false) ∧
    (∀ (action : String) (uid cid : Nat) (gid : Option Nat) (msg : DiscordMessage)
        (env : Env) (store : Store),
      (button_click action uid cid gid msg env store).2.2.head? =
        some (Event.storeGet msg.id)) := by
  constructor
  · intro shop uid cid gid env store
    obtain ⟨d, gr, fu, ed, ac, ef, ins, sb, g⟩ := env
    cases d
    · rfl
    rcases gr with _ | m
    · rfl
    cases fu
    · rfl
    cases ins
    · rfl
    cases hlook : (get_shopping_list_item_by_message_id store m).isSome <;>
      simp [handle_application_command, create_loading_message,
        push_list_item_to_database, add_shopping_list_item, hlook,
        storeAccessBeforeAck]
  · intro action uid cid gid msg env store
    unfold button_click
    cases ha : answerable env store msg.id <;> simp [ha]

/-- C7: setting the bought flag twice leaves the store exactly as
setting it once, and the result does not depend on the acting user —
any user may close any item. -/
theorem set_bought_idempotent_and_userfree (store : Store) (u u2 m : Nat) :
    set_shopping_list_item_bought (set_shopping_list_item_bought store u m true) u m true =
      set_shopping_list_item_bought store u m true ∧
    set_shopping_list_item_bought store u m true =
      set_shopping_list_item_bought store u2 m true := by
  refine ⟨?_, rfl⟩
  unfold set_shopping_list_item_bought
  rw [List.map_map]
  congr 1
  funext r
  by_cases h : r.message_id = m
  · simp [h]
  · simp [h]

/-- C6: a button click whose message identifier has no record in the
store is rejected as `NotFound`; the store is unchanged and the only
effect is the gating lookup — no render mutation occurs. -/
theorem button_click_missing_record_not_found (action : String) (uid cid : Nat)
    (gid : Option Nat) (msg : DiscordMessage) (env : Env) (store : Store)
    (hget : env.get_ok = true)
    (hmiss : get_shopping_list_item_by_message_id store msg.id = none) :
    button_click action uid cid gid msg env store =
      (.notFound, store, [Event.storeGet msg.id]) := by
  unfold button_click answerable
  simp [hget, hmiss]

/-- Witness for C6: a click on message 7 with an empty store. -/
theorem button_click_missing_record_not_found_witness :
    button_click "bought" 1 2 none msg0 envAll [] =
      (.notFound, [], [Event.storeGet 7]) :=
  button_click_missing_record_not_found "bought" 1 2 none msg0 envAll []
    (by decide) (by decide)

/-- Lookup by `find?` on an appended list finds on the left part first. -/
theorem find?_append_left {α : Type} (l1 l2 : List α) (p : α → Bool) (x : α)
    (h : l1.find? p = some x) : (l1 ++ l2).find? p = some x := by
  rw [List.find?_append, h]
  rfl

/-- C5: a `readd` click on an existing closed record creates a
brand-new record whose item, personal, quantity, store and notes fields
equal the closed record's, whose bought flag is false and whose key is
the freshly rendered message's identifier (different from the closed
record's key); the closed record itself is still found unchanged. -/
theorem readd_creates_fresh_copy (uid cid : Nat) (gid : Option Nat)
    (msg : DiscordMessage) (env : Env) (store : Store) (it : ShoppingListItem)
    (m2 : Nat)
    (hget : env.get_ok = true)
    (hit : get_shopping_list_item_by_message_id store msg.id = some it)
    (hb : it.bought = true)
    (hd : env.defer_ok = true)
    (hm2 : env.get_response = some m2)
    (hf : env.followup_ok = true)
    (hins : env.insert_ok = true)
    (hfresh : get_shopping_list_item_by_message_id store m2 = none) :
    button_click "readd" uid cid gid msg env store =
      (.ok CommandResponse.noResponse,
       store ++
         [{ message_id := m2, user_id := uid, channel_id := cid, guild_id := gid,
            item := it.item, personal := it.personal, quantity := it.quantity,
            store := it.store, notes := it.notes, bought := false }],
       [Event.storeGet msg.id, Event.storeGet msg.id, Event.deferAck,
        Event.getResponse m2, Event.followup m2,
        Event.storeInsert
          { message_id := m2, user_id := uid, channel_id := cid, guild_id := gid,
            item := it.item, personal := it.personal, quantity := it.quantity,
            store := it.store, notes := it.notes, bought := false }]) ∧
    m2 ≠ msg.id ∧
    get_shopping_list_item_by_message_id
      (button_click "readd" uid cid gid msg env store).2.1 msg.id = some it := by
  have hne : m2 ≠ msg.id := by
    intro he
    rw [he, hit] at hfresh
    cases hfresh
  have hmain : button_click "readd" uid cid gid msg env store =
      (.ok CommandResponse.noResponse,
       store ++
         [{ message_id := m2, user_id := uid, channel_id := cid, guild_id := gid,
            item := it.item, personal := it.personal, quantity := it.quantity,
            store := it.store, notes := it.notes, bought := false }],
       [Event.storeGet msg.id, Event.storeGet msg.id, Event.deferAck,
        Event.getResponse m2, Event.followup m2,
        Event.storeInsert
          { message_id := m2, user_id := uid, channel_id := cid, guild_id := gid,
            item := it.item, personal := it.personal, quantity := it.quantity,
            store := it.store, notes := it.notes, bought := false }]) := by
    unfold button_click answerable interaction readd_flow create_loading_message
      push_list_item_to_database add_shopping_list_item
    simp [hget, hit, hd, hm2, hf, hins, hfresh]
  refine ⟨hmain, hne, ?_⟩
  rw [hmain]
  exact find?_append_left _ _ _ _ hit

/-- The closed counterpart of `item0`. -/
def item0closed : ShoppingListItem := { item0 with bought := true }

/-- Witness for C5: re-adding the closed record `item0closed` under an
environment whose fresh message identifier is 8. -/
theorem readd_creates_fresh_copy_witness :
    button_click "readd" 5 2 none msg0 { envAll with get_response := some 8 }
        [item0closed] =
      (.ok CommandResponse.noResponse,
       [item0closed,
        { message_id := 8, user_id := 5, channel_id := 2, guild_id := none,
          item := "milk 2L", personal := true, quantity := 3, store := none,
          notes := none, bought := false }],
       [Event.storeGet 7, Event.storeGet 7, Event.deferAck, Event.getResponse 8,
        Event.followup 8,
        Event.storeInsert
          { message_id := 8, user_id := 5, channel_id := 2, guild_id := none,
            item := "milk 2L", personal := true, quantity := 3, store := none,
            notes := none, bought := false }]) ∧
    (8 : Nat) ≠ msg0.id ∧
    get_shopping_list_item_by_message_id
      (button_click "readd" 5 2 none msg0 { envAll with get_response := some 8 }
          [item0closed]).2.1 msg0.id = some item0closed :=
  readd_creates_fresh_copy 5 2 none msg0 _ [item0closed] item0closed 8
    (by decide) (by decide) (by decide) (by decide) (by decide) (by decide)
    (by decide) (by decide)

/-! ### C9: new-item validation -/

/-- An option shape the `TryFrom` loop accepts without panicking. -/
def recognized (o : String × RValue) : Prop :=
  (∃ v, o = ("item", RValue.str v)) ∨
  (∃ v, o = ("personal", RValue.boolean v)) ∨
  (∃ v, o = ("quantity", RValue.integer v)) ∨
  (∃ v, o = ("store", RValue.str v)) ∨
  (∃ v, o = ("notes", RValue.str v))

theorem shopTryFromAux_missing_item :
    ∀ (opts : List (String × RValue)) (pe : Option Bool) (q : Option Int)
      (st no : Option String),
      (∀ o ∈ opts, recognized o) → hasOpt opts "item" = false →
      shopTryFromAux opts none pe q st no = .err "item and personal are required"
  | [], _, _, _, _, _, _ => rfl
  | o :: rest, pe, q, st, no, hrec, hitem => by
    have hrest : ∀ o2 ∈ rest, recognized o2 :=
      fun o2 h2 => hrec o2 (List.mem_cons_of_mem o h2)
    have hni : (o.1 == "item") = false ∧ hasOpt rest "item" = false := by
      have hsplit : hasOpt (o :: rest) "item" =
          ((o.1 == "item") || hasOpt rest "item") := by
        simp [hasOpt]
      rw [hsplit] at hitem
      exact ⟨(Bool.or_eq_false_iff.mp hitem).1, (Bool.or_eq_false_iff.mp hitem).2⟩
    rcases hrec o (List.mem_cons_self o rest) with
      ⟨v, rfl⟩ | ⟨v, rfl⟩ | ⟨v, rfl⟩ | ⟨v, rfl⟩ | ⟨v, rfl⟩
    · simp at hni
    · exact shopTryFromAux_missing_item rest (some v) q st no hrest hni.2
    · exact shopTryFromAux_missing_item rest pe (some v) st no hrest hni.2
    · exact shopTryFromAux_missing_item rest pe q (some v) no hrest hni.2
    · exact shopTryFromAux_missing_item rest pe q st (some v) hrest hni.2

theorem shopTryFromAux_missing_personal :
    ∀ (opts : List (String × RValue)) (i : Option String) (q : Option Int)
      (st no : Option String),
      (∀ o ∈ opts, recognized o) → hasOpt opts "personal" = false →
      shopTryFromAux opts i none q st no = .err "item and personal are required"
  | [], i, _, _, _, _, _ => by cases i <;> rfl
  | o :: rest, i, q, st, no, hrec, hpe => by
    have hrest : ∀ o2 ∈ rest, recognized o2 :=
      fun o2 h2 => hrec o2 (List.mem_cons_of_mem o h2)
    have hni : (o.1 == "personal") = false ∧ hasOpt rest "personal" = false := by
      have hsplit : hasOpt (o :: rest) "personal" =
          ((o.1 == "personal") || hasOpt rest "personal") := by
        simp [hasOpt]
      rw [hsplit] at hpe
      exact ⟨(Bool.or_eq_false_iff.mp hpe).1, (Bool.or_eq_false_iff.mp hpe).2⟩
    rcases hrec o (List.mem_cons_self o rest) with
      ⟨v, rfl⟩ | ⟨v, rfl⟩ | ⟨v, rfl⟩ | ⟨v, rfl⟩ | ⟨v, rfl⟩
    · exact shopTryFromAux_missing_personal rest (some v) q st no hrest hni.2
    · simp at hni
    · exact shopTryFromAux_missing_personal rest i (some v) st no hrest hni.2
    · exact shopTryFromAux_missing_personal rest i q (some v) no hrest hni.2
    · exact shopTryFromAux_missing_personal rest i q st (some v) hrest hni.2

theorem shopTryFromAux_quantity_default :
    ∀ (opts : List (String × RValue)) (i : Option String) (pe : Option Bool)
      (st no : Option String) (s : Shop),
      (∀ o ∈ opts, recognized o) → hasOpt opts "quantity" = false →
      shopTryFromAux opts i pe none st no = .ok s → s.quantity = 1
  | [], i, pe, _, _, s, _, _, h => by
    cases i <;> cases pe <;> simp [shopTryFromAux] at h
    rw [← h]
  | o :: rest, i, pe, st, no, s, hrec, hq, h => by
    have hrest : ∀ o2 ∈ rest, recognized o2 :=
      fun o2 h2 => hrec o2 (List.mem_cons_of_mem o h2)
    have hni : (o.1 == "quantity") = false ∧ hasOpt rest "quantity" = false := by
      have hsplit : hasOpt (o :: rest) "quantity" =
          ((o.1 == "quantity") || hasOpt rest "quantity") := by
        simp [hasOpt]
      rw [hsplit] at hq
      exact ⟨(Bool.or_eq_false_iff.mp hq).1, (Bool.or_eq_false_iff.mp hq).2⟩
    rcases hrec o (List.mem_cons_self o rest) with
      ⟨v, rfl⟩ | ⟨v, rfl⟩ | ⟨v, rfl⟩ | ⟨v, rfl⟩ | ⟨v, rfl⟩
    · exact shopTryFromAux_quantity_default rest (some v) pe st no s hrest hni.2 h
    · exact shopTryFromAux_quantity_default rest i (some v) st no s hrest hni.2 h
    · simp at hni
    · exact shopTryFromAux_quantity_default rest i pe (some v) no s hrest hni.2 h
    · exact shopTryFromAux_quantity_default rest i pe st (some v) s hrest hni.2 h

/-- C9: a new-item request missing the `item` or the `personal` option is
rejected as a validation error whose message names the required fields,
before any store access (the handler never runs: no effects at all); and
a valid request without a `quantity` option parses with quantity 1. -/
theorem new_item_validation (options : List (String × RValue)) (uid cid : Nat)
    (gid : Option Nat) (env : Env) (store : Store)
    (hrec : ∀ o ∈ options, recognized o) :
    ((hasOpt options "item" = false ∨ hasOpt options "personal" = false) →
      new_item_command options uid cid gid env store =
        (.validationErr "item and personal are required", store, [])) ∧
    (hasOpt options "quantity" = false →
      ∀ s, shopTryFrom options = .ok s → s.quantity = 1) := by
  constructor
  · intro hmiss
    have herr : shopTryFrom options = .err "item and personal are required" := by
      rcases hmiss with hmiss | hmiss
      · exact shopTryFromAux_missing_item options none none none none hrec hmiss
      · exact shopTryFromAux_missing_personal options none none none none hrec hmiss
    unfold new_item_command
    rw [herr]
  · intro hq s hs
    exact shopTryFromAux_quantity_default options none none none none s hrec hq hs

/-- Witness for C9: a request carrying only `personal` is rejected with
the validation message and produces no effects. -/
theorem new_item_validation_witness :
    new_item_command [("personal", RValue.boolean true)] 1 2 none envAll [] =
      (.validationErr "item and personal are required", [], []) :=
  (new_item_validation [("personal", RValue.boolean true)] 1 2 none envAll []
    (by
      intro o ho
      rw [List.mem_singleton] at ho
      subst ho
      exact Or.inr (Or.inl ⟨true, rfl⟩))).1 (Or.inl (by decide))

/-! ### C10: panic conditions of the bought/remove button handlers -/

/-- A clicked message with no embeds at all. -/
def msgNoEmbed : DiscordMessage := { id := 7, embeds := [] }

/-- C10 as stated is false: on a message carrying no embed at all (so no
first embed with a description), the `bought` handler still returns an
error value rather than panicking, although the stated precondition does
not hold — returning an error value is not confined to that
precondition. -/
theorem bought_error_outside_precondition_counterexample :
    (bought_flow 1 msgNoEmbed envAll [item0]).1 = .err (.internalFailure errDiscord) ∧
    msgNoEmbed.embeds.head? = none ∧
    envAll.ack_ok = true := by
  decide

/-- C10 amended: when the clicked message's first embed has a
description and the final acknowledgement succeeds, the `bought` and
`remove` handlers never panic (they return a value, possibly an error);
when the store write succeeds but the first embed exists without a
description, or the edit succeeds and the final acknowledgement fails,
both handlers panic instead of returning an error. -/
theorem bought_remove_panic_conditions (uid : Nat) (msg : DiscordMessage)
    (env : Env) (store : Store) :
    (∀ e, msg.embeds.head? = some e → e.description.isSome = true →
      env.ack_ok = true →
      (bought_flow uid msg env store).1 ≠ .panicked ∧
      (remove_flow uid msg env store).1 ≠ .panicked) ∧
    (∀ e, env.set_bought_ok = true → msg.embeds.head? = some e →
      e.description = none →
      (bought_flow uid msg env store).1 = .panicked ∧
      (remove_flow uid msg env store).1 = .panicked) ∧
    (∀ e d, env.set_bought_ok = true → msg.embeds.head? = some e →
      e.description = some d → env.edit_ok = true → env.ack_ok = false →
      (bought_flow uid msg env store).1 = .panicked ∧
      (remove_flow uid msg env store).1 = .panicked) := by
  obtain ⟨d, gr, fu, ed, ac, ef, ins, sb, g⟩ := env
  refine ⟨?_, ?_, ?_⟩
  · intro e he hdesc hack
    rcases hd : e.description with _ | dsc
    · rw [hd] at hdesc
      cases hdesc
    cases sb <;> cases ed <;>
      simp [bought_flow, remove_flow, he, hd, hack] at hack ⊢ <;>
        simp [hack]
  · intro e hsb he hdesc
    subst hsb
    simp [bought_flow, remove_flow, he, hdesc]
  · intro e dsc hsb he hdesc hed hack
    subst hsb
    subst hed
    subst hack
    simp [bought_flow, remove_flow, he, hdesc]

/-- Witness for the amended C10 at a concrete input: with a described
embed and a succeeding acknowledgement, neither handler panics. -/
theorem bought_remove_panic_conditions_witness :
    (bought_flow 1 msg0 envAll [item0]).1 ≠ .panicked ∧
    (remove_flow 1 msg0 envAll [item0]).1 ≠ .panicked :=
  (bought_remove_panic_conditions 1 msg0 envAll [item0]).1
    { description := some "Added x3 milk 2L to the shopping list" }
    (by decide) (by decide) (by decide)

end TomBot
